import Mathlib

/-! Verification development for the CycleSense repository.

Shallow embedding of the feature-engineering step (src/utils/preprocess.py),
the profile-assignment and inference functions (src/utils/profiles.py), the
cluster-statistics lookup and report formatting (src/utils/report.py), and the
form flattening of src/app.py.  The pre-trained artifacts (classifiers, name
maps, logical map, cluster averages) are opaque external data and appear as
parameters of the embedded functions.  Machine floats are modelled by rational
and real numbers. -/

/-- Proposition that a string contains each listed part as a contiguous
substring, in the listed order, possibly with gaps between parts. -/
def containsInOrder : String → List String → Prop
  | _, [] => True
  | s, p :: ps => ∃ pre rest, s = pre ++ p ++ rest ∧ containsInOrder rest ps

/-- Helper for Boolean substring search: does the needle occur starting at some
position of the haystack. -/
def containsAux (needle : List Char) : List Char → Bool
  | [] => needle.isEmpty
  | c :: rest => needle.isPrefixOf (c :: rest) || containsAux needle rest

/-- Boolean test that `needle` occurs as a contiguous substring of `hay`. -/
def strContains (hay needle : String) : Bool := containsAux needle.data hay.data

/-- Wide-format single-user row: three recorded values for each of the four
cycle feature families, as built by src/app.py and consumed by
mean_std_cv_from_wide in src/utils/preprocess.py. -/
structure WideRow where
  LengthofCycle : Fin 3 → ℚ
  EstimatedDayofOvulation : Fin 3 → ℚ
  LengthofLutealPhase : Fin 3 → ℚ
  LengthofMenses : Fin 3 → ℚ

/-- Arithmetic mean of a feature family's three per-cycle values, embedding
`vals.mean()` for the 3-element value vector. -/
def familyMean (v : Fin 3 → ℚ) : ℚ := (v 0 + v 1 + v 2) / 3

/-- Population variance of the three values: mean of squared deviations,
the square of numpy's `vals.std(ddof=0)`. -/
def popVar (v : Fin 3 → ℚ) : ℚ :=
  ((v 0 - familyMean v) ^ 2 + (v 1 - familyMean v) ^ 2 + (v 2 - familyMean v) ^ 2) / 3

/-- Population standard deviation, embedding `vals.std(ddof=0)`. -/
noncomputable def popStd (v : Fin 3 → ℚ) : ℝ := Real.sqrt ((popVar v : ℚ) : ℝ)

/-- Coefficient of variation with the guard of src/utils/preprocess.py line 17:
`(vals.std(ddof=0) / vals.mean()) if vals.mean() > 0 else 0.0`. -/
noncomputable def cvOf (v : Fin 3 → ℚ) : ℝ :=
  if 0 < familyMean v then popStd v / ((familyMean v : ℚ) : ℝ) else 0

/-- Output of the feature engineering step: mean, std and cv for each of the
four feature families (the columns of the returned one-row DataFrame). -/
structure VariabilitySummary where
  LengthofCycle_mean : ℚ
  LengthofCycle_std : ℝ
  LengthofCycle_cv : ℝ
  EstimatedDayofOvulation_mean : ℚ
  EstimatedDayofOvulation_std : ℝ
  EstimatedDayofOvulation_cv : ℝ
  LengthofLutealPhase_mean : ℚ
  LengthofLutealPhase_std : ℝ
  LengthofLutealPhase_cv : ℝ
  LengthofMenses_mean : ℚ
  LengthofMenses_std : ℝ
  LengthofMenses_cv : ℝ

/-- Embedding of mean_std_cv_from_wide (src/utils/preprocess.py lines 4-18). -/
noncomputable def mean_std_cv_from_wide (Xr : WideRow) : VariabilitySummary where
  LengthofCycle_mean := familyMean Xr.LengthofCycle
  LengthofCycle_std := popStd Xr.LengthofCycle
  LengthofCycle_cv := cvOf Xr.LengthofCycle
  EstimatedDayofOvulation_mean := familyMean Xr.EstimatedDayofOvulation
  EstimatedDayofOvulation_std := popStd Xr.EstimatedDayofOvulation
  EstimatedDayofOvulation_cv := cvOf Xr.EstimatedDayofOvulation
  LengthofLutealPhase_mean := familyMean Xr.LengthofLutealPhase
  LengthofLutealPhase_std := popStd Xr.LengthofLutealPhase
  LengthofLutealPhase_cv := cvOf Xr.LengthofLutealPhase
  LengthofMenses_mean := familyMean Xr.LengthofMenses
  LengthofMenses_std := popStd Xr.LengthofMenses
  LengthofMenses_cv := cvOf Xr.LengthofMenses

/-- One recorded cycle as entered in the UI form of src/app.py (integral
number inputs). -/
structure CycleRecord where
  LengthofCycle : ℤ
  LengthofMenses : ℤ
  EstimatedDayofOvulation : ℤ

/-- Declared bounds of the three per-cycle form fields in src/app.py
(min_value/max_value of the st.number_input widgets). -/
def formValid (c : CycleRecord) : Prop :=
  15 ≤ c.LengthofCycle ∧ c.LengthofCycle ≤ 60 ∧
  2 ≤ c.LengthofMenses ∧ c.LengthofMenses ≤ 10 ∧
  10 ≤ c.EstimatedDayofOvulation ∧ c.EstimatedDayofOvulation ≤ 30

/-- Flattening of the three cycle records into the wide row, deriving the
luteal phase as cycle length minus menses length minus ovulation day
(src/app.py lines 68-78). -/
def buildUserWide (cs : Fin 3 → CycleRecord) : WideRow where
  LengthofCycle := fun i => ((cs i).LengthofCycle : ℚ)
  EstimatedDayofOvulation := fun i => ((cs i).EstimatedDayofOvulation : ℚ)
  LengthofLutealPhase := fun i =>
    (((cs i).LengthofCycle - (cs i).LengthofMenses - (cs i).EstimatedDayofOvulation : ℤ) : ℚ)
  LengthofMenses := fun i => ((cs i).LengthofMenses : ℚ)

/-- Row of the cluster-averages artifact for one logical profile.  Each field
is optional, mirroring `dict.get` returning None when the key is absent. -/
structure ClusterRow where
  Age_mean : Option ℚ
  BMI_mean : Option ℚ
  Numberpreg_mean : Option ℚ
  complication_rate : Option ℚ

/-- Empty cluster row, the `{}` default used for an unknown logical profile. -/
def emptyRow : ClusterRow := ⟨none, none, none, none⟩

/-- Note table of ttc_inference (src/utils/profiles.py lines 76-97). -/
def ttcNotesList : List (String × String) := [
  ("Stable-Compact", "Generally favorable for TTC. Predictable cycles help timing. Watch for luteal sufficiency."),
  ("Stable-Balanced", "Most fertile baseline group. If there is difficulty conceiving, causes may lie outside cycle rhythm."),
  ("Stable-Delayed", "Later ovulation reduces the number of fertile windows per year. TTC may take longer despite stable cycles."),
  ("Stable-Extended", "Predictable but late ovulation. TTC might require patience. Monitor luteal adequacy."),
  ("Mostly Steady-Balanced", "Mild irregularity can delay TTC. Tracking is still useful, though timing may be less precise."),
  ("Somewhat Irregular-Compact", "Older age combined with irregularity raises TTC challenges. May signal declining ovarian reserve."),
  ("Somewhat Irregular-Delayed", "Longer cycles reduce conception opportunities. TTC delay is possible but not prohibitive."),
  ("Somewhat Irregular-Extended", "Very long cycles make conception windows sparse. Early assessment may be warranted."),
  ("Unstable-Compact", "Highly irregular cycles in advanced age with complications. TTC prognosis is guarded. Seek evaluation."),
  ("Unstable-Balanced", "Cycles are unpredictable. Conception is possible but erratic. Consider ovulation testing."),
  ("Unstable-Delayed", "Metabolic risk profile may be present. TTC may be impaired by anovulation. Lifestyle support can help."),
  ("Unstable-Extended", "Highly irregular cycles with high BMI create a double barrier for TTC. Referral for PCOS or endocrine evaluation is likely."),
  ("Critical-Extended", "Very rare pattern. Individualized TTC approach is recommended.")]

/-- Dictionary lookup into the TTC note table. -/
def ttcNotes (name : String) : Option String := ttcNotesList.lookup name

/-- Fallback base note of ttc_inference for an unmapped logical name. -/
def ttcFallbackNote : String := "Cycle implications not fully mapped yet."

/-- Advanced-maternal-age overlay text of ttc_inference. -/
def ttcAdvAgePhrase : String :=
  " Advanced maternal age: TTC urgency is higher due to declining ovarian reserve."

/-- Protective-young-age overlay text of ttc_inference. -/
def ttcYoungAgePhrase : String :=
  " Younger age is generally protective for TTC potential."

/-- Elevated-BMI overlay text of ttc_inference. -/
def ttcHighBmiPhrase : String :=
  " Elevated BMI may reduce ovulatory efficiency and implantation."

/-- Low-BMI overlay text of ttc_inference. -/
def ttcLowBmiPhrase : String :=
  " Very low BMI may impair ovulation or luteal function."

/-- Proven-fertility overlay text of ttc_inference. -/
def ttcFertilityPhrase : String :=
  " History of multiple pregnancies suggests proven fertility."

/-- No-prior-pregnancies overlay text of ttc_inference. -/
def ttcNoPregPhrase : String :=
  " No prior pregnancies: TTC monitoring may help detect early issues."

/-- Complications overlay text of ttc_inference. -/
def ttcComplicationsPhrase : String :=
  " User has reproductive complications; additional monitoring recommended."

/-- Age overlay of ttc_inference (src/utils/profiles.py lines 101-104). -/
def ttcAgeOverlay (age : ℚ) : String :=
  if age > 35 then ttcAdvAgePhrase
  else if age < 25 then ttcYoungAgePhrase
  else ""

/-- BMI overlay of ttc_inference (src/utils/profiles.py lines 106-109). -/
def ttcBmiOverlay (bmi : ℚ) : String :=
  if bmi ≥ 30 then ttcHighBmiPhrase
  else if bmi < 18.5 then ttcLowBmiPhrase
  else ""

/-- Pregnancy-history overlay of ttc_inference (src/utils/profiles.py lines
111-117): skipped entirely when the cluster mean is unavailable. -/
def ttcPregOverlay (cluster_mean_preg : Option ℚ) (preg : ℤ) : String :=
  match cluster_mean_preg with
  | none => ""
  | some m =>
      if (preg : ℚ) > m then ttcFertilityPhrase
      else if preg = 0 then ttcNoPregPhrase
      else ""

/-- Complications overlay of ttc_inference (src/utils/profiles.py lines
119-120); an int is truthy in Python exactly when it is nonzero. -/
def ttcComplOverlay (complications : ℤ) : String :=
  if complications ≠ 0 then ttcComplicationsPhrase else ""

/-- Embedding of ttc_inference (src/utils/profiles.py lines 71-122).  The
cluster-averages artifact is a parameter; the overlays are appended to the
base note in the source's order. -/
def ttc_inference (cluster_avgs : String → Option ClusterRow) (logical_name : String)
    (age bmi : ℚ) (preg complications : ℤ) : String :=
  (ttcNotes logical_name).getD ttcFallbackNote
    ++ ttcAgeOverlay age
    ++ ttcBmiOverlay bmi
    ++ ttcPregOverlay ((cluster_avgs logical_name).getD emptyRow).Numberpreg_mean preg
    ++ ttcComplOverlay complications

/-- Note table of clinical_inference (src/utils/profiles.py lines 130-151). -/
def clinNotesList : List (String × String) := [
  ("Stable-Compact", "Predictable, short cycles. Usually ovulatory. Monitor for luteal phase adequacy."),
  ("Stable-Balanced", "Normal ovulatory pattern. No immediate cycle-related red flags."),
  ("Stable-Delayed", "Later ovulation. May warrant luteal monitoring."),
  ("Stable-Extended", "Late but regular ovulation. Keep in mind risk of subfertility if luteal phase is short."),
  ("Mostly Steady-Balanced", "Mild irregularity. Could be early ovulatory dysfunction. Watch metabolic or endocrine markers."),
  ("Somewhat Irregular-Compact", "Short but irregular cycles in an older age group. Possible diminished ovarian reserve."),
  ("Somewhat Irregular-Delayed", "Long but mildly irregular cycles. Check for anovulation or thyroid dysfunction."),
  ("Somewhat Irregular-Extended", "Very long cycles in a leaner profile. Possible hypothalamic dysfunction."),
  ("Unstable-Compact", "Highly irregular cycles in older age. Consistent with perimenopausal transition. High complication risk."),
  ("Unstable-Balanced", "Irregular cycles with average cycle length. May reflect subclinical ovulatory dysfunction."),
  ("Unstable-Delayed", "Long, variable cycles with higher BMI. Screen for PCOS or metabolic syndrome."),
  ("Unstable-Extended", "Very long, highly irregular cycles with high BMI. Strong PCOS suspicion. Evaluate endocrine profile."),
  ("Critical-Extended", "Rare presentation. Interpret with caution. Individualized evaluation required.")]

/-- Dictionary lookup into the clinical note table. -/
def clinNotes (name : String) : Option String := clinNotesList.lookup name

/-- Fallback base note of clinical_inference for an unmapped logical name. -/
def clinFallbackNote : String := "Cycle implications not fully mapped."

/-- Reassuring profiles whose cautionary overlays clinical_inference
suppresses (src/utils/profiles.py line 154). -/
def reassuring_profiles : List String :=
  ["Stable-Balanced", "Stable-Compact", "Stable-Delayed", "Stable-Extended"]

/-- Advanced-age caution text of clinical_inference. -/
def clinAdvAgePhrase : String :=
  " Advanced reproductive age: increased risk of anovulation, miscarriage."

/-- Young-age note text of clinical_inference. -/
def clinYoungAgePhrase : String :=
  " Younger age: irregularity may reflect hypothalamic immaturity."

/-- Elevated-BMI caution text of clinical_inference. -/
def clinHighBmiPhrase : String :=
  " Elevated BMI: consider metabolic/endocrine assessment."

/-- Low-BMI caution text of clinical_inference. -/
def clinLowBmiPhrase : String :=
  " Underweight: possible hypothalamic anovulation."

/-- Complications overlay text of clinical_inference. -/
def clinComplicationsPhrase : String :=
  " History of reproductive complications: requires close follow-up."

/-- Age overlay of clinical_inference (src/utils/profiles.py lines 157-160);
the young-age branch fires below 20. -/
def clinAgeOverlay (age : ℚ) : String :=
  if age > 35 then clinAdvAgePhrase
  else if age < 20 then clinYoungAgePhrase
  else ""

/-- BMI overlay of clinical_inference (src/utils/profiles.py lines 162-165). -/
def clinBmiOverlay (bmi : ℚ) : String :=
  if bmi ≥ 30 then clinHighBmiPhrase
  else if bmi < 18.5 then clinLowBmiPhrase
  else ""

/-- Complications overlay of clinical_inference (src/utils/profiles.py lines
167-168). -/
def clinComplOverlay (complications : ℤ) : String :=
  if complications ≠ 0 then clinComplicationsPhrase else ""

/-- Embedding of clinical_inference (src/utils/profiles.py lines 125-170):
the age and BMI overlays are appended only for profiles outside the
reassuring set, the complications overlay unconditionally.  The pregnancy
parameter is accepted, and unused, as in the source. -/
def clinical_inference (logical_name : String) (age bmi : ℚ)
    (preg complications : ℤ) : String :=
  (clinNotes logical_name).getD clinFallbackNote
    ++ (if logical_name ∈ reassuring_profiles then ""
        else clinAgeOverlay age ++ clinBmiOverlay bmi)
    ++ clinComplOverlay complications

/-- Result record of assign_user_profile, mirroring the returned 4-tuple
(raw_name, var_name, combined, logical). -/
structure ClusterAssignment where
  raw_name : String
  var_name : String
  combined : String
  logical : String

/-- Embedding of assign_user_profile (src/utils/profiles.py lines 13-36).
The two pre-trained classifiers (composed with their feature selection) and
the three name/lookup maps are opaque read-only artifacts, passed as
parameters. -/
noncomputable def assign_user_profile
    (pipe_raw : WideRow → ℕ) (raw_name_map : ℕ → String)
    (pipe_var : VariabilitySummary → ℕ) (var_name_map : ℕ → String)
    (logical_map : String → Option String)
    (user_wide_row : WideRow) : ClusterAssignment :=
  let raw_name := raw_name_map (pipe_raw user_wide_row)
  let var_name := var_name_map (pipe_var (mean_std_cv_from_wide user_wide_row))
  let combined := raw_name ++ " + " ++ var_name
  { raw_name := raw_name
    var_name := var_name
    combined := combined
    logical := (logical_map combined).getD combined }

/-- Note table of explain_profile (src/utils/profiles.py lines 46-67). -/
def explainNotesList : List (String × String) := [
  ("Stable-Compact", "Short, predictable cycles; avg. age ~32, BMI ~25.7. ~3 pregnancies. ~26% complications — reliable but not risk-free."),
  ("Stable-Balanced", "Consistently regular cycles; avg. age ~31, BMI ~23.4. ~3–4 pregnancies. ~30% complications despite steady rhythm."),
  ("Stable-Delayed", "Slightly longer but steady cycles; avg. age ~30, BMI ~24.1. ~2.5 pregnancies. No complications observed (tiny cluster, interpret cautiously)."),
  ("Stable-Extended", "Longest predictable cycles; younger (~29), BMI ~24.3. ~2 pregnancies. No complications seen."),
  ("Mostly Steady-Balanced", "Balanced cycles with mild irregularity; avg. age ~30, BMI ~24.5. ~2 pregnancies. ~27% complications — early warning cluster."),
  ("Somewhat Irregular-Compact", "Short but mildly irregular; older (~33–34), BMI ~25.9. ~2 pregnancies. ~25% complication rate."),
  ("Somewhat Irregular-Delayed", "Long, mildly irregular cycles; avg. age ~31, BMI ~23.7. ~2–3 pregnancies. ~17% complication rate."),
  ("Somewhat Irregular-Extended", "Very long, mildly irregular; avg. age ~30, leaner (BMI ~21). ~2 pregnancies. ~10% complication rate."),
  ("Unstable-Compact", "Short, highly variable cycles; oldest group (~38), BMI ~26.2. ~5 pregnancies. 100% complications — very high risk cluster."),
  ("Unstable-Balanced", "Average-length but highly variable; avg. age ~32, BMI ~26.4. ~3–4 pregnancies. ~33% complication rate."),
  ("Unstable-Delayed", "Long and highly variable; younger (~28), BMI ~28.0. ~2 pregnancies. ~33% complication rate."),
  ("Unstable-Extended", "Very long and highly variable; avg. age ~32, BMI ~29.1. ~3 pregnancies. ~40% complication rate."),
  ("Critical-Extended", "Extended but unstable; very rare (n=1). Age ~25, BMI ~25.1, no pregnancies or complications. Interpret individually.")]

/-- Embedding of explain_profile (src/utils/profiles.py lines 42-68). -/
def explain_profile (logical_name : String) : String :=
  (explainNotesList.lookup logical_name).getD
    "Cycle profile combining length pattern and stability characteristics."

/-- Output record of lookup_cluster_stats: the four per-profile statistics. -/
structure ClusterStatsOut where
  age_avg : Option ℚ
  bmi_avg : Option ℚ
  preg_avg : Option ℚ
  comp_rate : Option ℚ

/-- Embedding of lookup_cluster_stats (src/utils/report.py lines 14-40,
mapping branch): retrieves the per-profile averages and normalizes the
complication rate, treating a stored value above 1 as a percentage. -/
def lookup_cluster_stats (cluster_avgs : String → Option ClusterRow)
    (logical : String) : ClusterStatsOut :=
  let row := (cluster_avgs logical).getD emptyRow
  { age_avg := row.Age_mean
    bmi_avg := row.BMI_mean
    preg_avg := row.Numberpreg_mean
    comp_rate :=
      match row.complication_rate with
      | none => none
      | some v => some (if v > 1 then v / 100 else v) }

/-- Model of Python fixed-point formatting to one decimal place (the f-string
spec .1f): rounds half up at the first decimal (Python rounds the underlying
double half to even; no claim exercises a tie).  Computes with the reduced
numerator and denominator so the floor is an integer division. -/
def fmtOneDec (q : ℚ) : String :=
  let n : ℤ := Int.fdiv (20 * q.num + (q.den : ℤ)) (2 * (q.den : ℤ))
  let m : ℕ := n.natAbs
  (if n < 0 then "-" else "") ++ toString (m / 10) ++ "." ++ toString (m % 10)

/-- Model of Python percentage formatting with no decimals (the f-string spec
.0%): multiply by 100, round to an integer, append a percent sign. -/
def fmtPercent (q : ℚ) : String :=
  let n : ℤ := Int.fdiv (200 * q.num + (q.den : ℤ)) (2 * (q.den : ℤ))
  (if n < 0 then "-" else "") ++ toString n.natAbs ++ "%"

/-- Embedding of fmt_num (src/utils/report.py lines 43-44): format the
statistic to one decimal, falling back to the caller-supplied value when the
statistic is unavailable.  A missing value (None, or NaN, which ℚ cannot
represent) is the `none` case. -/
def fmt_num (x : Option ℚ) (fallback : ℚ) : String :=
  match x with
  | some v => fmtOneDec v
  | none => fmtOneDec fallback

/-- Embedding of fmt_rate (src/utils/report.py lines 46-47). -/
def fmt_rate (x : Option ℚ) : String :=
  match x with
  | some v => fmtPercent v
  | none => "N/A"

/-- Embedding of make_clinician_report (src/utils/report.py lines 68-88); the
f-string template rendered as explicit concatenation, with the user's age and
pregnancy count displayed verbatim as integers. -/
def make_clinician_report (cluster_avgs : String → Option ClusterRow)
    (name : String) (age : ℤ) (bmi : ℚ) (num_preg complications : ℤ)
    (logical : String) : String :=
  let s := lookup_cluster_stats cluster_avgs logical
  "**Patient**: " ++ name ++ ", " ++ toString age ++ "y\n\n**Profile**: "
    ++ logical
    ++ "\n\n**Cluster**: " ++ explain_profile logical
    ++ "\n\n**Demographics**:\n- Age " ++ toString age
    ++ " (cluster avg " ++ fmt_num s.age_avg (age : ℚ) ++ ")"
    ++ "\n- BMI " ++ fmtOneDec bmi
    ++ " (cluster avg " ++ fmt_num s.bmi_avg bmi ++ ")"
    ++ "\n- Pregnancies: " ++ toString num_preg
    ++ " (cluster avg " ++ fmt_num s.preg_avg (num_preg : ℚ) ++ ")"
    ++ "\n- Complications: " ++ (if complications ≠ 0 then "Yes" else "No")
    ++ " (cluster rate " ++ fmt_rate s.comp_rate ++ ")"
    ++ "\n\n**Interpretation**: "
    ++ clinical_inference logical (age : ℚ) bmi num_preg complications
    ++ "\n"

/-- Splitting lemma: a five-part concatenation contains its five parts in
order. -/
theorem containsInOrder_chain5 (a b c d e : String) :
    containsInOrder (a ++ b ++ c ++ d ++ e) [a, b, c, d, e] := by
  simp only [containsInOrder]
  exact ⟨"", b ++ c ++ d ++ e, by simp [String.append_assoc],
    "", c ++ d ++ e, by simp [String.append_assoc],
    "", d ++ e, by simp [String.append_assoc],
    "", e, by simp [String.append_assoc],
    "", "", by simp, trivial⟩

/-- Splitting lemma: a concatenation of four parts interleaved with gap
strings contains the four parts in order. -/
theorem containsInOrder_gaps4 (g0 p1 g1 p2 g2 p3 g3 p4 g4 : String) :
    containsInOrder (g0 ++ p1 ++ g1 ++ p2 ++ g2 ++ p3 ++ g3 ++ p4 ++ g4)
      [p1, p2, p3, p4] := by
  simp only [containsInOrder]
  exact ⟨g0, g1 ++ p2 ++ g2 ++ p3 ++ g3 ++ p4 ++ g4, by simp [String.append_assoc],
    g1, g2 ++ p3 ++ g3 ++ p4 ++ g4, by simp [String.append_assoc],
    g2, g3 ++ p4 ++ g4, by simp [String.append_assoc],
    g3, g4, by simp [String.append_assoc], trivial⟩

/-- Lookup lemma: every pair of the TTC note table is found by ttcNotes. -/
theorem ttcNotes_mem (p : String × String) (hp : p ∈ ttcNotesList) :
    ttcNotes p.1 = some p.2 := by
  fin_cases hp <;> rfl

/-- Lookup lemma: every pair of the clinical note table is found by
clinNotes. -/
theorem clinNotes_mem (p : String × String) (hp : p ∈ clinNotesList) :
    clinNotes p.1 = some p.2 := by
  fin_cases hp <;> rfl

/-- Evaluation lemma: the TTC age overlay above the threshold 35. -/
theorem ttcAgeOverlay_hi (age : ℚ) (h : 35 < age) :
    ttcAgeOverlay age = ttcAdvAgePhrase := by
  unfold ttcAgeOverlay
  exact if_pos h

/-- Evaluation lemma: the TTC age overlay below 25. -/
theorem ttcAgeOverlay_young (age : ℚ) (h1 : ¬ 35 < age) (h2 : age < 25) :
    ttcAgeOverlay age = ttcYoungAgePhrase := by
  unfold ttcAgeOverlay
  rw [if_neg h1, if_pos h2]

/-- Evaluation lemma: the TTC age overlay is empty between 25 and 35. -/
theorem ttcAgeOverlay_mid (age : ℚ) (h1 : ¬ 35 < age) (h2 : ¬ age < 25) :
    ttcAgeOverlay age = "" := by
  unfold ttcAgeOverlay
  rw [if_neg h1, if_neg h2]

/-- Evaluation lemma: the TTC BMI overlay at or above 30. -/
theorem ttcBmiOverlay_hi (bmi : ℚ) (h : 30 ≤ bmi) :
    ttcBmiOverlay bmi = ttcHighBmiPhrase := by
  unfold ttcBmiOverlay
  exact if_pos h

/-- Evaluation lemma: the TTC pregnancy overlay when the cluster mean is
unavailable. -/
theorem ttcPregOverlay_none (preg : ℤ) : ttcPregOverlay none preg = "" := rfl

/-- Evaluation lemma: the TTC pregnancy overlay for zero pregnancies not above
the cluster mean. -/
theorem ttcPregOverlay_noprior (m : ℚ) (preg : ℤ) (h1 : ¬ m < (preg : ℚ))
    (h2 : preg = 0) : ttcPregOverlay (some m) preg = ttcNoPregPhrase := by
  simp only [ttcPregOverlay]
  rw [if_neg h1, if_pos h2]

/-- Evaluation lemma: the TTC complications overlay for a truthy flag. -/
theorem ttcComplOverlay_pos (c : ℤ) (h : c ≠ 0) :
    ttcComplOverlay c = ttcComplicationsPhrase := by
  unfold ttcComplOverlay
  exact if_pos h

/-- Evaluation lemma: the TTC pregnancy overlay above the cluster mean. -/
theorem ttcPregOverlay_fert (m : ℚ) (preg : ℤ) (h : m < (preg : ℚ)) :
    ttcPregOverlay (some m) preg = ttcFertilityPhrase := by
  simp only [ttcPregOverlay]
  rw [if_pos h]

/-- Evaluation lemma: the TTC pregnancy overlay is empty for a nonzero count
not above the cluster mean. -/
theorem ttcPregOverlay_skip (m : ℚ) (preg : ℤ) (h1 : ¬ m < (preg : ℚ))
    (h2 : preg ≠ 0) : ttcPregOverlay (some m) preg = "" := by
  simp only [ttcPregOverlay]
  rw [if_neg h1, if_neg h2]

/-- Evaluation lemma: the TTC complications overlay for a zero flag. -/
theorem ttcComplOverlay_zero (c : ℤ) (h : c = 0) : ttcComplOverlay c = "" := by
  unfold ttcComplOverlay
  rw [if_neg (by simp [h])]

/-- Evaluation lemma: the TTC BMI overlay below 18.5. -/
theorem ttcBmiOverlay_low (bmi : ℚ) (h1 : ¬ 30 ≤ bmi) (h2 : bmi < 18.5) :
    ttcBmiOverlay bmi = ttcLowBmiPhrase := by
  unfold ttcBmiOverlay
  rw [if_neg h1, if_pos h2]

/-- Evaluation lemma: the TTC BMI overlay is empty between 18.5 and 30. -/
theorem ttcBmiOverlay_mid (bmi : ℚ) (h1 : ¬ 30 ≤ bmi) (h2 : ¬ bmi < 18.5) :
    ttcBmiOverlay bmi = "" := by
  unfold ttcBmiOverlay
  rw [if_neg h1, if_neg h2]

/-- Evaluation lemma: the clinical age overlay above the threshold 35. -/
theorem clinAgeOverlay_hi (age : ℚ) (h : 35 < age) :
    clinAgeOverlay age = clinAdvAgePhrase := by
  unfold clinAgeOverlay
  exact if_pos h

/-- Evaluation lemma: the clinical age overlay below 20. -/
theorem clinAgeOverlay_young (age : ℚ) (h1 : ¬ 35 < age) (h2 : age < 20) :
    clinAgeOverlay age = clinYoungAgePhrase := by
  unfold clinAgeOverlay
  rw [if_neg h1, if_pos h2]

/-- Evaluation lemma: the clinical age overlay is empty between 20 and 35. -/
theorem clinAgeOverlay_mid (age : ℚ) (h1 : ¬ 35 < age) (h2 : ¬ age < 20) :
    clinAgeOverlay age = "" := by
  unfold clinAgeOverlay
  rw [if_neg h1, if_neg h2]

/-- Evaluation lemma: the clinical BMI overlay at or above 30. -/
theorem clinBmiOverlay_hi (bmi : ℚ) (h : 30 ≤ bmi) :
    clinBmiOverlay bmi = clinHighBmiPhrase := by
  unfold clinBmiOverlay
  exact if_pos h

/-- Evaluation lemma: the clinical BMI overlay below 18.5. -/
theorem clinBmiOverlay_low (bmi : ℚ) (h1 : ¬ 30 ≤ bmi) (h2 : bmi < 18.5) :
    clinBmiOverlay bmi = clinLowBmiPhrase := by
  unfold clinBmiOverlay
  rw [if_neg h1, if_pos h2]

/-- Evaluation lemma: the clinical BMI overlay is empty between 18.5 and 30. -/
theorem clinBmiOverlay_mid (bmi : ℚ) (h1 : ¬ 30 ≤ bmi) (h2 : ¬ bmi < 18.5) :
    clinBmiOverlay bmi = "" := by
  unfold clinBmiOverlay
  rw [if_neg h1, if_neg h2]

/-- Evaluation lemma: the clinical complications overlay for a truthy flag. -/
theorem clinComplOverlay_pos (c : ℤ) (h : c ≠ 0) :
    clinComplOverlay c = clinComplicationsPhrase := by
  unfold clinComplOverlay
  exact if_pos h

/-- Evaluation lemma: the clinical complications overlay for a zero flag. -/
theorem clinComplOverlay_zero (c : ℤ) (h : c = 0) : clinComplOverlay c = "" := by
  unfold clinComplOverlay
  rw [if_neg (by simp [h])]

/-- Sample wide row used by witnesses: the form's default values, cycle length
28, ovulation day 14, luteal phase 9, menses length 5 for all three cycles. -/
def sampleWide : WideRow := ⟨fun _ => 28, fun _ => 14, fun _ => 9, fun _ => 5⟩

/-- C1: for every logical profile in the TTC note table, at age 36, BMI 31,
zero pregnancies and complications present, with the cluster's mean pregnancy
count available and positive, the TTC note contains in order the base note and
then the advanced-maternal-age, elevated-BMI, no-prior-pregnancies and
complications phrases; in general the age overlay is the caution exactly when
age exceeds 35, the reassurance exactly when age is below 25 and not above 35,
and empty for ages 25 through 35 inclusive. -/
theorem C1_ttc_overlay_order (p : String × String) (hp : p ∈ ttcNotesList)
    (ca : String → Option ClusterRow) (m : ℚ)
    (hm : ((ca p.1).getD emptyRow).Numberpreg_mean = some m) (hpos : 0 < m) :
    containsInOrder (ttc_inference ca p.1 36 31 0 1)
      [p.2, ttcAdvAgePhrase, ttcHighBmiPhrase, ttcNoPregPhrase, ttcComplicationsPhrase]
    ∧ (∀ age : ℚ, 35 < age → ttcAgeOverlay age = ttcAdvAgePhrase)
    ∧ (∀ age : ℚ, age ≤ 35 → age < 25 → ttcAgeOverlay age = ttcYoungAgePhrase)
    ∧ (∀ age : ℚ, 25 ≤ age → age ≤ 35 → ttcAgeOverlay age = "") := by
  refine ⟨?_, ?_, ?_, ?_⟩
  · have hbase := ttcNotes_mem p hp
    have hres : ttc_inference ca p.1 36 31 0 1
        = p.2 ++ ttcAdvAgePhrase ++ ttcHighBmiPhrase ++ ttcNoPregPhrase
            ++ ttcComplicationsPhrase := by
      unfold ttc_inference
      rw [hbase, hm, Option.getD_some,
        ttcAgeOverlay_hi 36 (by norm_num),
        ttcBmiOverlay_hi 31 (by norm_num),
        ttcPregOverlay_noprior m 0
          (by push_cast; exact not_lt.mpr (le_of_lt hpos)) rfl,
        ttcComplOverlay_pos 1 (by decide)]
    rw [hres]
    exact containsInOrder_chain5 _ _ _ _ _
  · exact fun age h => ttcAgeOverlay_hi age h
  · exact fun age h1 h2 => ttcAgeOverlay_young age (not_lt.mpr h1) h2
  · exact fun age h1 h2 => ttcAgeOverlay_mid age (not_lt.mpr h2) (not_lt.mpr h1)

/-- Witness for C1 at the Stable-Compact profile with cluster mean pregnancy
count 2. -/
theorem C1_ttc_overlay_order_witness :
    containsInOrder
      (ttc_inference (fun _ => some ⟨none, none, some 2, none⟩)
        "Stable-Compact" 36 31 0 1)
      ["Generally favorable for TTC. Predictable cycles help timing. Watch for luteal sufficiency.",
       ttcAdvAgePhrase, ttcHighBmiPhrase, ttcNoPregPhrase, ttcComplicationsPhrase] :=
  (C1_ttc_overlay_order
    ("Stable-Compact",
      "Generally favorable for TTC. Predictable cycles help timing. Watch for luteal sufficiency.")
    (by decide) (fun _ => some ⟨none, none, some 2, none⟩) 2 rfl
    (by norm_num)).1

/-- C2: for every reassuring profile the clinical note is the base note plus
only the complications overlay, for all ages, BMI values and pregnancy counts;
at Stable-Balanced with age 40 and BMI 35 the note contains none of the four
caution phrases yet contains the complications phrase; and for every profile
whatsoever the complications overlay is appended whenever the flag is set. -/
theorem C2_reassuring_suppression (name : String)
    (hname : name ∈ reassuring_profiles) (age bmi : ℚ) (preg complications : ℤ) :
    clinical_inference name age bmi preg complications
      = (clinNotes name).getD clinFallbackNote ++ clinComplOverlay complications
    ∧ strContains (clinical_inference "Stable-Balanced" 40 35 0 1) clinAdvAgePhrase = false
    ∧ strContains (clinical_inference "Stable-Balanced" 40 35 0 1) clinYoungAgePhrase = false
    ∧ strContains (clinical_inference "Stable-Balanced" 40 35 0 1) clinHighBmiPhrase = false
    ∧ strContains (clinical_inference "Stable-Balanced" 40 35 0 1) clinLowBmiPhrase = false
    ∧ strContains (clinical_inference "Stable-Balanced" 40 35 0 1) clinComplicationsPhrase = true
    ∧ (∀ n : String, ∀ a b : ℚ, ∀ p c : ℤ, c ≠ 0 →
        ∃ pre, clinical_inference n a b p c = pre ++ clinComplicationsPhrase) := by
  refine ⟨?_, by decide, by decide, by decide, by decide, by decide, ?_⟩
  · unfold clinical_inference
    rw [if_pos hname]
    simp [String.append_empty]
  · intro n a b p c hc
    exact ⟨(clinNotes n).getD clinFallbackNote
        ++ (if n ∈ reassuring_profiles then ""
            else clinAgeOverlay a ++ clinBmiOverlay b),
      by unfold clinical_inference; rw [clinComplOverlay_pos c hc]⟩

/-- Witness for C2 at Stable-Balanced, age 40, BMI 35, complications set. -/
theorem C2_reassuring_suppression_witness :
    clinical_inference "Stable-Balanced" 40 35 0 1
      = (clinNotes "Stable-Balanced").getD clinFallbackNote ++ clinComplOverlay 1 :=
  (C2_reassuring_suppression "Stable-Balanced" (by decide) 40 35 0 1).1

/-- C3 counterexample: Unstable-Balanced is not reassuring and age 22 is below
the TTC young-age threshold 25 without exceeding 35, yet clinical_inference
appends no young-age note there — its young-age branch fires only below 20, so
the clinical thresholds are not the same as the TTC ones. -/
theorem C3_counterexample :
    "Unstable-Balanced" ∉ reassuring_profiles
    ∧ (22 : ℚ) < 25 ∧ ¬ (35 : ℚ) < 22
    ∧ clinical_inference "Unstable-Balanced" 22 25 0 0
        = (clinNotes "Unstable-Balanced").getD clinFallbackNote
    ∧ strContains (clinical_inference "Unstable-Balanced" 22 25 0 0)
        clinYoungAgePhrase = false := by
  have hres : clinical_inference "Unstable-Balanced" 22 25 0 0
      = (clinNotes "Unstable-Balanced").getD clinFallbackNote := by
    unfold clinical_inference
    rw [if_neg (by decide : ¬ "Unstable-Balanced" ∈ reassuring_profiles),
      clinAgeOverlay_mid 22 (by norm_num) (by norm_num),
      clinBmiOverlay_mid 25 (by norm_num) (by norm_num),
      clinComplOverlay_zero 0 rfl]
    simp [String.append_empty]
  refine ⟨by decide, by norm_num, by norm_num, hres, ?_⟩
  rw [hres]
  decide

/-- C3 amended: outside the reassuring set, clinical_inference appends its age
and BMI overlays in order; the age caution threshold is 35 as in
ttc_inference, but the young-age branch fires below 20 rather than below 25;
the BMI thresholds (at least 30, below 18.5) coincide with those of
ttc_inference. -/
theorem C3_amended_overlays (name : String) (hname : name ∉ reassuring_profiles)
    (age bmi : ℚ) (preg complications : ℤ) :
    clinical_inference name age bmi preg complications
      = (clinNotes name).getD clinFallbackNote
          ++ clinAgeOverlay age ++ clinBmiOverlay bmi
          ++ clinComplOverlay complications
    ∧ (35 < age → clinAgeOverlay age = clinAdvAgePhrase)
    ∧ (age ≤ 35 → age < 20 → clinAgeOverlay age = clinYoungAgePhrase)
    ∧ (age ≤ 35 → 20 ≤ age → clinAgeOverlay age = "")
    ∧ (30 ≤ bmi →
        clinBmiOverlay bmi = clinHighBmiPhrase ∧ ttcBmiOverlay bmi = ttcHighBmiPhrase)
    ∧ (bmi < 30 → bmi < 18.5 →
        clinBmiOverlay bmi = clinLowBmiPhrase ∧ ttcBmiOverlay bmi = ttcLowBmiPhrase)
    ∧ (18.5 ≤ bmi → bmi < 30 →
        clinBmiOverlay bmi = "" ∧ ttcBmiOverlay bmi = "") := by
  refine ⟨?_, ?_, ?_, ?_, ?_, ?_, ?_⟩
  · unfold clinical_inference
    rw [if_neg hname]
    simp [String.append_assoc]
  · exact fun h => clinAgeOverlay_hi age h
  · exact fun h1 h2 => clinAgeOverlay_young age (not_lt.mpr h1) h2
  · exact fun h1 h2 => clinAgeOverlay_mid age (not_lt.mpr h1) (not_lt.mpr h2)
  · exact fun h => ⟨clinBmiOverlay_hi bmi h, ttcBmiOverlay_hi bmi h⟩
  · exact fun h1 h2 =>
      ⟨clinBmiOverlay_low bmi (not_le.mpr h1) h2, ttcBmiOverlay_low bmi (not_le.mpr h1) h2⟩
  · exact fun h1 h2 =>
      ⟨clinBmiOverlay_mid bmi (not_le.mpr h2) (not_lt.mpr h1),
       ttcBmiOverlay_mid bmi (not_le.mpr h2) (not_lt.mpr h1)⟩

/-- Witness for the amended C3 at Unstable-Balanced, age 40, BMI 31. -/
theorem C3_amended_overlays_witness :
    clinical_inference "Unstable-Balanced" 40 31 2 1
      = (clinNotes "Unstable-Balanced").getD clinFallbackNote
          ++ clinAgeOverlay 40 ++ clinBmiOverlay 31 ++ clinComplOverlay 1 :=
  (C3_amended_overlays "Unstable-Balanced" (by decide) 40 31 2 1).1

/-- C4: for every wide input each family summary is the family mean, the
population standard deviation and the guarded coefficient of variation; the
mean is the arithmetic mean of the three values, the std is nonnegative with
square equal to the mean squared deviation (ddof 0), and the cv equals
std/mean when the mean is positive and is exactly 0 when the mean is
nonpositive, the division never being performed there. -/
theorem C4_variability_summary (Xr : WideRow) :
    (∀ v : Fin 3 → ℚ,
        familyMean v = (v 0 + v 1 + v 2) / 3
      ∧ 0 ≤ popStd v
      ∧ popStd v ^ 2
          = ((((v 0 - familyMean v) ^ 2 + (v 1 - familyMean v) ^ 2
              + (v 2 - familyMean v) ^ 2) / 3 : ℚ) : ℝ)
      ∧ (0 < familyMean v → cvOf v = popStd v / ((familyMean v : ℚ) : ℝ))
      ∧ (familyMean v ≤ 0 → cvOf v = 0))
    ∧ (mean_std_cv_from_wide Xr).LengthofCycle_mean = familyMean Xr.LengthofCycle
    ∧ (mean_std_cv_from_wide Xr).LengthofCycle_std = popStd Xr.LengthofCycle
    ∧ (mean_std_cv_from_wide Xr).LengthofCycle_cv = cvOf Xr.LengthofCycle
    ∧ (mean_std_cv_from_wide Xr).EstimatedDayofOvulation_mean
        = familyMean Xr.EstimatedDayofOvulation
    ∧ (mean_std_cv_from_wide Xr).EstimatedDayofOvulation_std
        = popStd Xr.EstimatedDayofOvulation
    ∧ (mean_std_cv_from_wide Xr).EstimatedDayofOvulation_cv
        = cvOf Xr.EstimatedDayofOvulation
    ∧ (mean_std_cv_from_wide Xr).LengthofLutealPhase_mean
        = familyMean Xr.LengthofLutealPhase
    ∧ (mean_std_cv_from_wide Xr).LengthofLutealPhase_std
        = popStd Xr.LengthofLutealPhase
    ∧ (mean_std_cv_from_wide Xr).LengthofLutealPhase_cv
        = cvOf Xr.LengthofLutealPhase
    ∧ (mean_std_cv_from_wide Xr).LengthofMenses_mean = familyMean Xr.LengthofMenses
    ∧ (mean_std_cv_from_wide Xr).LengthofMenses_std = popStd Xr.LengthofMenses
    ∧ (mean_std_cv_from_wide Xr).LengthofMenses_cv = cvOf Xr.LengthofMenses := by
  refine ⟨fun v => ⟨rfl, Real.sqrt_nonneg _, ?_, ?_, ?_⟩,
    rfl, rfl, rfl, rfl, rfl, rfl, rfl, rfl, rfl, rfl, rfl, rfl⟩
  · have h0 : (0 : ℝ) ≤ ((popVar v : ℚ) : ℝ) := by
      unfold popVar
      positivity
    unfold popStd
    rw [Real.sq_sqrt h0]
    rfl
  · intro h
    unfold cvOf
    exact if_pos h
  · intro h
    unfold cvOf
    exact if_neg (not_lt.mpr h)

/-- Witness for C4: a constant-2 family has positive mean and std/mean cv, a
constant-negative family has nonpositive mean and cv exactly 0. -/
theorem C4_variability_summary_witness :
    (0 : ℚ) < familyMean (fun _ => 2)
    ∧ cvOf (fun _ => 2) = popStd (fun _ => 2) / ((familyMean (fun _ => 2) : ℚ) : ℝ)
    ∧ familyMean (fun _ => (-1 : ℚ)) ≤ 0
    ∧ cvOf (fun _ => (-1 : ℚ)) = 0 := by
  have h1 : (0 : ℚ) < familyMean (fun _ => 2) := by norm_num [familyMean]
  have h2 : familyMean (fun _ => (-1 : ℚ)) ≤ 0 := by norm_num [familyMean]
  exact ⟨h1,
    ((C4_variability_summary sampleWide).1 (fun _ => 2)).2.2.2.1 h1,
    h2,
    ((C4_variability_summary sampleWide).1 (fun _ => (-1 : ℚ))).2.2.2.2 h2⟩

/-- C5: assign_user_profile builds the combined name as raw name, separator,
variability name; when the logical map has an entry for the combined name the
logical name is that entry, and when it has none the logical name is the
combined name itself, with no error path. -/
theorem C5_logical_fallback (pipe_raw : WideRow → ℕ) (raw_name_map : ℕ → String)
    (pipe_var : VariabilitySummary → ℕ) (var_name_map : ℕ → String)
    (logical_map : String → Option String) (row : WideRow) :
    (assign_user_profile pipe_raw raw_name_map pipe_var var_name_map logical_map row).combined
      = raw_name_map (pipe_raw row) ++ " + "
          ++ var_name_map (pipe_var (mean_std_cv_from_wide row))
    ∧ (∀ l, logical_map
          ((assign_user_profile pipe_raw raw_name_map pipe_var var_name_map logical_map row).combined)
          = some l →
        (assign_user_profile pipe_raw raw_name_map pipe_var var_name_map logical_map row).logical
          = l)
    ∧ (logical_map
          ((assign_user_profile pipe_raw raw_name_map pipe_var var_name_map logical_map row).combined)
          = none →
        (assign_user_profile pipe_raw raw_name_map pipe_var var_name_map logical_map row).logical
          = (assign_user_profile pipe_raw raw_name_map pipe_var var_name_map logical_map row).combined) := by
  refine ⟨rfl, ?_, ?_⟩
  · intro l h
    simp only [assign_user_profile] at h ⊢
    rw [h]
    rfl
  · intro h
    simp only [assign_user_profile] at h ⊢
    rw [h]
    rfl

/-- Witness for C5: with a logical map holding no entries, the logical name
equals the combined name. -/
theorem C5_logical_fallback_witness :
    (assign_user_profile (fun _ => 0) (fun _ => "Stable") (fun _ => 0)
        (fun _ => "Balanced") (fun _ => none) sampleWide).logical
      = (assign_user_profile (fun _ => 0) (fun _ => "Stable") (fun _ => 0)
        (fun _ => "Balanced") (fun _ => none) sampleWide).combined :=
  (C5_logical_fallback (fun _ => 0) (fun _ => "Stable") (fun _ => 0)
    (fun _ => "Balanced") (fun _ => none) sampleWide).2.2 rfl

/-- C6: when the cluster mean pregnancy count is unavailable for the logical
name, ttc_inference appends neither pregnancy overlay and still returns the
complete note made of the base note and the remaining overlays; when the mean
is available, the proven-fertility note is appended exactly when the count
exceeds the mean, otherwise the no-prior-pregnancies note exactly when the
count is zero, and no pregnancy overlay otherwise. -/
theorem C6_missing_cluster_mean (ca : String → Option ClusterRow) (name : String)
    (age bmi : ℚ) (preg complications : ℤ) :
    (((ca name).getD emptyRow).Numberpreg_mean = none →
      ttc_inference ca name age bmi preg complications
        = (ttcNotes name).getD ttcFallbackNote ++ ttcAgeOverlay age
            ++ ttcBmiOverlay bmi ++ ttcComplOverlay complications)
    ∧ (∀ m : ℚ, ((ca name).getD emptyRow).Numberpreg_mean = some m →
        (m < (preg : ℚ) →
          ttc_inference ca name age bmi preg complications
            = (ttcNotes name).getD ttcFallbackNote ++ ttcAgeOverlay age
                ++ ttcBmiOverlay bmi ++ ttcFertilityPhrase
                ++ ttcComplOverlay complications)
        ∧ (¬ m < (preg : ℚ) → preg = 0 →
          ttc_inference ca name age bmi preg complications
            = (ttcNotes name).getD ttcFallbackNote ++ ttcAgeOverlay age
                ++ ttcBmiOverlay bmi ++ ttcNoPregPhrase
                ++ ttcComplOverlay complications)
        ∧ (¬ m < (preg : ℚ) → preg ≠ 0 →
          ttc_inference ca name age bmi preg complications
            = (ttcNotes name).getD ttcFallbackNote ++ ttcAgeOverlay age
                ++ ttcBmiOverlay bmi ++ ttcComplOverlay complications)) := by
  constructor
  · intro h
    unfold ttc_inference
    rw [h, ttcPregOverlay_none]
    simp [String.append_empty]
  · intro m hm
    refine ⟨?_, ?_, ?_⟩
    · intro h
      unfold ttc_inference
      rw [hm, ttcPregOverlay_fert m preg h]
    · intro h1 h2
      unfold ttc_inference
      rw [hm, ttcPregOverlay_noprior m preg h1 h2]
    · intro h1 h2
      unfold ttc_inference
      rw [hm, ttcPregOverlay_skip m preg h1 h2]
      simp [String.append_empty]

/-- Witness for C6: with no cluster-averages entry at all the note is still
complete, with no pregnancy overlay. -/
theorem C6_missing_cluster_mean_witness :
    ttc_inference (fun _ => none) "Stable-Balanced" 30 25 1 0
      = (ttcNotes "Stable-Balanced").getD ttcFallbackNote ++ ttcAgeOverlay 30
          ++ ttcBmiOverlay 25 ++ ttcComplOverlay 0 :=
  (C6_missing_cluster_mean (fun _ => none) "Stable-Balanced" 30 25 1 0).1 rfl

/-- C7: every stored complication-rate value is scale-normalized by the
lookup: a value strictly greater than 1 is divided by 100, a value at most 1
is passed through unchanged. -/
theorem C7_rate_scale (ca : String → Option ClusterRow) (logical : String)
    (v : ℚ) (hv : ((ca logical).getD emptyRow).complication_rate = some v) :
    (1 < v → (lookup_cluster_stats ca logical).comp_rate = some (v / 100))
    ∧ (v ≤ 1 → (lookup_cluster_stats ca logical).comp_rate = some v) := by
  constructor
  · intro h
    simp only [lookup_cluster_stats, hv]
    rw [if_pos h]
  · intro h
    simp only [lookup_cluster_stats, hv]
    rw [if_neg (not_lt.mpr h)]

/-- Witness for C7: a stored rate of 26 is interpreted as 26 percent. -/
theorem C7_rate_scale_witness :
    (lookup_cluster_stats (fun _ => some ⟨none, none, none, some 26⟩)
      "Stable-Compact").comp_rate = some (26 / 100) :=
  (C7_rate_scale (fun _ => some ⟨none, none, none, some 26⟩)
    "Stable-Compact" 26 rfl).1 (by norm_num)

/-- C9: assign_user_profile is deterministic: with the same fixed artifacts,
identical cycle input rows give identical assignments, every component
included. -/
theorem C9_deterministic (pipe_raw : WideRow → ℕ) (raw_name_map : ℕ → String)
    (pipe_var : VariabilitySummary → ℕ) (var_name_map : ℕ → String)
    (logical_map : String → Option String) (row₁ row₂ : WideRow)
    (h : row₁ = row₂) :
    assign_user_profile pipe_raw raw_name_map pipe_var var_name_map logical_map row₁
      = assign_user_profile pipe_raw raw_name_map pipe_var var_name_map logical_map row₂ := by
  rw [h]

/-- Witness for C9 at the sample row and constant stub classifiers. -/
theorem C9_deterministic_witness :
    assign_user_profile (fun _ => 0) (fun _ => "Stable") (fun _ => 0)
        (fun _ => "Balanced") (fun _ => none) sampleWide
      = assign_user_profile (fun _ => 0) (fun _ => "Stable") (fun _ => 0)
        (fun _ => "Balanced") (fun _ => none) sampleWide :=
  C9_deterministic (fun _ => 0) (fun _ => "Stable") (fun _ => 0)
    (fun _ => "Balanced") (fun _ => none) sampleWide sampleWide rfl

/-- C10: the non-positive-mean guard of the feature engineering is reachable
from valid form input: cycle length 15, menses 10, ovulation day 30 lie within
the declared bounds of the form, give luteal phase -25 in all three cycles, a
nonpositive luteal mean, and luteal coefficient of variation exactly 0. -/
theorem C10_luteal_guard_reachable :
    formValid ⟨15, 10, 30⟩
    ∧ familyMean (buildUserWide fun _ => ⟨15, 10, 30⟩).LengthofLutealPhase ≤ 0
    ∧ (mean_std_cv_from_wide
        (buildUserWide fun _ => ⟨15, 10, 30⟩)).LengthofLutealPhase_cv = 0 := by
  have hmean : familyMean (buildUserWide fun _ => ⟨15, 10, 30⟩).LengthofLutealPhase
      = -25 := by
    norm_num [familyMean, buildUserWide]
  refine ⟨?_, by rw [hmean]; norm_num, ?_⟩
  · unfold formValid
    exact ⟨by norm_num, by norm_num, by norm_num, by norm_num, by norm_num, by norm_num⟩
  · show cvOf (buildUserWide fun _ => ⟨15, 10, 30⟩).LengthofLutealPhase = 0
    unfold cvOf
    rw [if_neg (by rw [hmean]; norm_num)]

/-- C8: fmt_num formats the statistic to one decimal and formats the user's
own value in its place when the statistic is unavailable, so a number always
appears and never a missing-value placeholder; fmt_rate formats an available
rate as a percentage and is the literal N/A otherwise; in the clinician report
with no cluster-statistics entry the three comparison slots carry the user's
own formatted values, in order, and the rate slot carries N/A. -/
theorem C8_report_formatting (ca : String → Option ClusterRow) (name : String)
    (age : ℤ) (bmi : ℚ) (num_preg complications : ℤ) (logical : String)
    (hmiss : ca logical = none) :
    (∀ fb : ℚ, fmt_num none fb = fmtOneDec fb)
    ∧ (∀ x fb : ℚ, fmt_num (some x) fb = fmtOneDec x)
    ∧ (∀ (x : Option ℚ) (fb : ℚ), ∃ w : ℚ,
        fmt_num x fb = fmtOneDec w ∧ (x = some w ∨ (x = none ∧ w = fb)))
    ∧ fmt_rate none = "N/A"
    ∧ (∀ x : ℚ, fmt_rate (some x) = fmtPercent x)
    ∧ containsInOrder
        (make_clinician_report ca name age bmi num_preg complications logical)
        [" (cluster avg " ++ fmtOneDec (age : ℚ) ++ ")",
         " (cluster avg " ++ fmtOneDec bmi ++ ")",
         " (cluster avg " ++ fmtOneDec (num_preg : ℚ) ++ ")",
         " (cluster rate " ++ "N/A" ++ ")"] := by
  refine ⟨fun fb => rfl, fun x fb => rfl, ?_, rfl, fun x => rfl, ?_⟩
  · intro x fb
    cases x with
    | none => exact ⟨fb, rfl, Or.inr ⟨rfl, rfl⟩⟩
    | some w => exact ⟨w, rfl, Or.inl rfl⟩
  · have hstats : lookup_cluster_stats ca logical = ⟨none, none, none, none⟩ := by
      simp [lookup_cluster_stats, hmiss, emptyRow]
    have hrep : make_clinician_report ca name age bmi num_preg complications logical
        = ("**Patient**: " ++ name ++ ", " ++ toString age ++ "y\n\n**Profile**: "
            ++ logical ++ "\n\n**Cluster**: " ++ explain_profile logical
            ++ "\n\n**Demographics**:\n- Age " ++ toString age)
          ++ (" (cluster avg " ++ fmtOneDec (age : ℚ) ++ ")")
          ++ ("\n- BMI " ++ fmtOneDec bmi)
          ++ (" (cluster avg " ++ fmtOneDec bmi ++ ")")
          ++ ("\n- Pregnancies: " ++ toString num_preg)
          ++ (" (cluster avg " ++ fmtOneDec (num_preg : ℚ) ++ ")")
          ++ ("\n- Complications: " ++ (if complications ≠ 0 then "Yes" else "No"))
          ++ (" (cluster rate " ++ "N/A" ++ ")")
          ++ ("\n\n**Interpretation**: "
              ++ clinical_inference logical (age : ℚ) bmi num_preg complications
              ++ "\n") := by
      simp only [make_clinician_report, hstats, fmt_num, fmt_rate]
      simp only [String.append_assoc]
    rw [hrep]
    exact containsInOrder_gaps4 _ _ _ _ _ _ _ _ _

/-- Witness for C8 at a cluster-averages artifact with no entries. -/
theorem C8_report_formatting_witness :
    containsInOrder
      (make_clinician_report (fun _ => none) "Ada" 30 25 1 0 "Stable-Balanced")
      [" (cluster avg " ++ fmtOneDec ((30 : ℤ) : ℚ) ++ ")",
       " (cluster avg " ++ fmtOneDec 25 ++ ")",
       " (cluster avg " ++ fmtOneDec ((1 : ℤ) : ℚ) ++ ")",
       " (cluster rate " ++ "N/A" ++ ")"] :=
  (C8_report_formatting (fun _ => none) "Ada" 30 25 1 0 "Stable-Balanced" rfl).2.2.2.2.2
